import Mathlib

/-!
Shallow embedding of the Selphi single-page component
(src/src/components/selphi.jsx).

Conventions used throughout:
  - JS values that are either a string or null/undefined are `Option String`
    (`none` models null/undefined).
  - Machine-visible JS truthiness tests are explicit boolean functions
    (`jsFalsy`, `jsFalsyJson`).
  - The Firestore handle is modelled as a `Bool` (present or not), the
    authenticated user as `Option String` (its uid), the application id as a
    `String` (the empty string is the unset, falsy value produced by the
    local-storage hook default).
  - `addDoc` calls are modelled as emitted `Write` records; each action
    returns the successor component state together with the list of writes
    it performs.
  - `Array.prototype.sort` with the consistent comparator
    (a, b) => (a.order or 0) - (b.order or 0) is modelled as the stable
    `List.mergeSort` on the corresponding boolean total preorder.
  - JSON.parse / JSON.stringify are platform builtins, not repository code;
    they appear as explicit function parameters (`Option`-valued parse, where
    `none` models a thrown exception).
-/

namespace Selphi

/-- A JSON value, modelling the values JSON.parse can return and the
document-store field values the component mirrors. -/
inductive Json where
  | null
  | bool (b : Bool)
  | num (n : Int)
  | str (s : String)
  | arr (xs : List Json)
  | obj (fields : List (String × Json))

/-- Property lookup obj[k] on a JS value: a key of a non-object, or a key
absent from an object, is undefined (`none`). -/
def jsLookup : Json → String → Option Json
  | .obj fields, k => fields.lookup k
  | _, _ => none

/-- JS falsiness of a possibly-undefined JSON value: undefined, null, false,
0 and the empty string are falsy; arrays and objects are always truthy. -/
def jsFalsyJson : Option Json → Bool
  | none => true
  | some .null => true
  | some (.bool b) => !b
  | some (.num n) => n == 0
  | some (.str s) => s == ""
  | some (.arr _) => false
  | some (.obj _) => false

/-- JS falsiness of a value that is a string or null (`!x` in the source). -/
def jsFalsy : Option String → Bool
  | none => true
  | some s => s == ""

/-- JS strict equality x === y between two values each of which is a string
or null/undefined: true exactly when both are the same string (null === null
does not arise in the component: the left operand is a mirrored document
field, which is a string or absent, and absent !== null in JS). -/
def strictEq : Option String → Option String → Bool
  | some a, some b => a == b
  | _, _ => false

/-- The keys required of a Firebase web config (source line 32). -/
def requiredKeys : List String := ["apiKey", "authDomain", "projectId"]

/-- The for-loop of parseFirebaseConfig (source line 33): returns null as
soon as one required key is falsy on the object, the object otherwise. -/
def checkRequired : List String → Json → Option Json
  | [], obj => some obj
  | k :: ks, obj =>
    if jsFalsyJson (jsLookup obj k) then none else checkRequired ks obj

/-- The parsed value parseFirebaseConfig works on: string input goes through
JSON.parse (the `jsonParse` parameter, `none` modelling a thrown
SyntaxError), any other value is used as is (source line 31). -/
def parsedVal (jsonParse : String → Option Json) : Json → Option Json
  | .str s => jsonParse s
  | v => some v

/-- parseFirebaseConfig (source lines 28-36). Falsy input is rejected; a
string input that fails to parse is rejected (the try/catch); a parsed value
on which some required key is falsy is rejected; otherwise the parsed value
is returned. -/
def parseFirebaseConfig (jsonParse : String → Option Json) (input : Json) :
    Option Json :=
  if jsFalsyJson (some input) then none
  else
    match parsedVal jsonParse input with
    | none => none
    | some obj => checkRequired requiredKeys obj

/-- A JSON.stringify / JSON.parse pair, as provided by the platform. -/
structure JsonCodec where
  stringify : Json → String
  parse : String → Option Json

/-- The lazy initial read of useLocalStorage (source lines 14-21): the
stored item (`none` when localStorage has no entry for the key) is parsed
when it is a non-empty string, and the supplied initial value is used when
the item is absent, empty, or fails to parse (the try/catch). -/
def useLocalStorageRead (codec : JsonCodec) (stored : Option String)
    (initialValue : Json) : Json :=
  match stored with
  | none => initialValue
  | some item =>
    if item == "" then initialValue
    else
      match codec.parse item with
      | some v => v
      | none => initialValue

/-- The write effect of useLocalStorage (source lines 22-24): the stored
item becomes JSON.stringify of the current value. -/
def useLocalStorageWrite (codec : JsonCodec) (value : Json) : Option String :=
  some (codec.stringify value)

/-- A mirrored niche-page document (only the fields the component reads:
the snapshot id and the isDefault flag). -/
structure Page where
  id : String
  isDefault : Bool
  deriving Repr, DecidableEq

/-- A mirrored widget document (only the fields the component reads);
`order` is `none` when the remote document has no order field. -/
structure Widget where
  id : String
  panelLocation : String
  pageId : Option String
  order : Option Int
  deriving Repr, DecidableEq

/-- A mirrored feed-post document (only the fields the component reads). -/
structure Post where
  id : String
  pageId : Option String
  deriving Repr, DecidableEq

/-- A JS value held by the widget-form order field: the initial value is the
number 0, and every onChange stores the raw input string. -/
inductive JsVal where
  | num (n : Int)
  | str (s : String)
  deriving Repr, DecidableEq

/-- String.prototype.trim: strips leading and trailing whitespace. -/
def jsTrim (s : String) : String :=
  ⟨((s.data.dropWhile Char.isWhitespace).reverse.dropWhile
      Char.isWhitespace).reverse⟩

/-- The numeric value of a non-empty run of decimal digits; `none` when the
run is empty or holds a non-digit. -/
def decDigits? (cs : List Char) : Option Int :=
  if !cs.isEmpty && cs.all Char.isDigit then
    some ((cs.foldl (fun n c => n * 10 + (c.toNat - 48)) 0 : Nat) : Int)
  else none

/-- Numeric conversion of an already-trimmed, non-empty string, restricted
to optionally signed decimal integer strings; `none` models NaN. -/
def strToInt? (s : String) : Option Int :=
  match s.data with
  | '-' :: rest => (decDigits? rest).map (fun n => -n)
  | '+' :: rest => decDigits? rest
  | cs => decDigits? cs

/-- JS Number() conversion, restricted to the values the widget form can
hold: a number converts to itself, the empty or all-whitespace string to 0,
a decimal integer string (with surrounding whitespace) to its value, and any
other string to NaN (`none`). -/
def jsToNum : JsVal → Option Int
  | .num n => some n
  | .str s => if jsTrim s == "" then some 0 else strToInt? (jsTrim s)

/-- Number(v) with fallback to 0 (source line 190): NaN becomes 0, and 0
itself is falsy so the fallback also yields 0. -/
def numOr0 (v : JsVal) : Int := (jsToNum v).getD 0

/-- The new-page form state. -/
structure NewPage where
  name : String
  privacyLevel : String
  deriving Repr, DecidableEq

/-- The new-widget form state. -/
structure NewWidget where
  type : String
  content : String
  order : JsVal
  deriving Repr, DecidableEq

/-- A field value written by addDoc. -/
inductive FieldValue where
  | str (s : String)
  | int (n : Int)
  | bool (b : Bool)
  | serverTimestamp
  deriving Repr, DecidableEq

/-- One addDoc call: the collection path and the document written. -/
structure Write where
  path : String
  doc : List (String × FieldValue)
  deriving Repr, DecidableEq

/-- The component state the claims are about. Purely presentational state
(settings modal, mobile toggles) is omitted: no action below touches it. -/
structure SelphiState where
  db : Bool
  user : Option String
  appId : String
  status : String
  pages : List Page
  activePageId : Option String
  widgets : List Widget
  feed : List Post
  showPageModal : Bool
  showLeftWidgetModal : Bool
  showRightWidgetModal : Bool
  newPage : NewPage
  newWidget : NewWidget
  newPost : String
  deriving Repr, DecidableEq

/-- The collection base path (source lines 130 and 169). -/
def basePath (appId uid : String) : String :=
  "artifacts/" ++ appId ++ "/users/" ++ uid ++ "/selphi_data"

/-- createPage (source lines 166-179): guarded on db, user and appId and on
a non-empty trimmed name; on success writes the page document and resets the
form and the modal flag. -/
def createPage (s : SelphiState) : SelphiState × List Write :=
  match s.user with
  | none => (s, [])
  | some uid =>
    if !s.db || s.appId == "" then (s, [])
    else if jsTrim s.newPage.name == "" then (s, [])
    else
      ({ s with newPage := ⟨"", "private"⟩, showPageModal := false },
       [⟨basePath s.appId uid ++ "/niche_pages",
         [("userId", .str uid),
          ("name", .str (jsTrim s.newPage.name)),
          ("privacyLevel", .str s.newPage.privacyLevel),
          ("isDefault", .bool (s.pages.length == 0)),
          ("createdAt", .serverTimestamp)]⟩])

/-- createWidget (source lines 181-196): additionally guarded on an active
page id and a non-empty trimmed content; on success writes the widget
document, resets the form and closes the modal of the given panel. -/
def createWidget (panelLocation : String) (s : SelphiState) :
    SelphiState × List Write :=
  match s.user, s.activePageId with
  | some uid, some pid =>
    if !s.db || s.appId == "" || pid == "" then (s, [])
    else if jsTrim s.newWidget.content == "" then (s, [])
    else
      ({ s with
          newWidget := ⟨"link", "", .num 0⟩,
          showLeftWidgetModal :=
            if panelLocation == "left" then false else s.showLeftWidgetModal,
          showRightWidgetModal :=
            if panelLocation == "left" then s.showRightWidgetModal else false },
       [⟨basePath s.appId uid ++ "/widgets",
         [("userId", .str uid),
          ("type", .str s.newWidget.type),
          ("content", .str (jsTrim s.newWidget.content)),
          ("panelLocation", .str panelLocation),
          ("order", .int (numOr0 s.newWidget.order)),
          ("pageId", .str pid),
          ("createdAt", .serverTimestamp)]⟩])
  | _, _ => (s, [])

/-- createPost (source lines 198-209): guarded like createWidget; on success
writes the post document and clears the input. -/
def createPost (s : SelphiState) : SelphiState × List Write :=
  match s.user, s.activePageId with
  | some uid, some pid =>
    if !s.db || s.appId == "" || pid == "" then (s, [])
    else if jsTrim s.newPost == "" then (s, [])
    else
      ({ s with newPost := "" },
       [⟨basePath s.appId uid ++ "/feed_posts",
         [("userId", .str uid),
          ("content", .str (jsTrim s.newPost)),
          ("pageId", .str pid),
          ("timestamp", .serverTimestamp)]⟩])
  | _, _ => (s, [])

/-- The sort key of the panel comparators: a missing order counts as 0
(source lines 161-162). -/
def orderD (w : Widget) : Int := w.order.getD 0

/-- The boolean preorder induced by the consistent comparator
(a, b) => orderD a - orderD b; a stable sort under it models the ES2019
Array.prototype.sort. -/
def widgetLE (a b : Widget) : Bool := orderD a ≤ orderD b

/-- leftWidgets (source line 161). -/
def leftWidgets (widgets : List Widget) (activePageId : Option String) :
    List Widget :=
  (widgets.filter
      (fun w => w.panelLocation == "left" && strictEq w.pageId activePageId)
    ).mergeSort widgetLE

/-- rightWidgets (source line 162). -/
def rightWidgets (widgets : List Widget) (activePageId : Option String) :
    List Widget :=
  (widgets.filter
      (fun w => w.panelLocation == "right" && strictEq w.pageId activePageId)
    ).mergeSort widgetLE

/-- pageFeed (source line 163). -/
def pageFeed (feed : List Post) (activePageId : Option String) : List Post :=
  feed.filter (fun p => strictEq p.pageId activePageId)

/-- The pages onSnapshot handler (source lines 134-141). The effect that
registers it has dependency list [db, user, appId], so the handler closes
over the activePageId value of the render in which the effect ran: the guard
reads that captured value (`capturedActivePageId`), not the state current
when a snapshot arrives. The handler replaces the mirrored pages list and,
when the captured id is falsy, sets the active page to the first page marked
isDefault, else to the first page, else to null. -/
def onPagesSnapshot (capturedActivePageId : Option String) (s : SelphiState)
    (docs : List Page) : SelphiState :=
  let s1 := { s with pages := docs }
  if jsFalsy capturedActivePageId then
    let d :=
      match docs.find? (fun p => p.isDefault) with
      | some p => some p
      | none => docs.head?
    { s1 with activePageId := d.map (fun p => p.id) }
  else s1

/-! Concrete fixtures used by the witnesses. -/

/-- A fully connected state: database present, user u1, app id app1, one
active page, blank mirrored collections, non-blank forms. -/
def sBase : SelphiState :=
  { db := true, user := some "u1", appId := "app1", status := "ok",
    pages := [], activePageId := some "p1", widgets := [], feed := [],
    showPageModal := true, showLeftWidgetModal := true,
    showRightWidgetModal := true,
    newPage := ⟨"Home", "public"⟩,
    newWidget := ⟨"text", "hello", JsVal.str "2"⟩,
    newPost := "hi" }

/-- sBase with the database handle absent. -/
def sNoDb : SelphiState := { sBase with db := false }

/-- The page document createPage writes from sBase. -/
def wPageC : Write :=
  ⟨"artifacts/app1/users/u1/selphi_data/niche_pages",
   [("userId", .str "u1"), ("name", .str "Home"),
    ("privacyLevel", .str "public"), ("isDefault", .bool true),
    ("createdAt", .serverTimestamp)]⟩

/-- C1: with the database handle, the authenticated user, or the application
id absent, each create operation writes nothing and leaves the component
state unchanged. -/
theorem create_ops_noop_of_missing_deps (s : SelphiState)
    (h : s.db = false ∨ s.user = none ∨ s.appId = "") :
    createPage s = (s, []) ∧ (∀ loc, createWidget loc s = (s, []))
      ∧ createPost s = (s, []) := by
  refine ⟨?_, fun loc => ?_, ?_⟩ <;>
    rcases h with h | h | h <;>
      cases hu : s.user <;> cases ha : s.activePageId <;>
        simp_all [createPage, createWidget, createPost]

/-- C1 witness: createPage on the concrete no-database state. -/
theorem create_ops_noop_of_missing_deps_witness :
    createPage sNoDb = (sNoDb, []) :=
  (create_ops_noop_of_missing_deps sNoDb (Or.inl rfl)).1

/-- C9: a blank (empty after trimming) page name, widget content, or post
body makes the corresponding create operation a no-op, and every document
actually written stores the trimmed, necessarily non-empty text. -/
theorem create_ops_require_nonblank_trimmed_text (s : SelphiState) :
    (jsTrim s.newPage.name = "" → createPage s = (s, []))
    ∧ (∀ loc, jsTrim s.newWidget.content = "" → createWidget loc s = (s, []))
    ∧ (jsTrim s.newPost = "" → createPost s = (s, []))
    ∧ (∀ w, w ∈ (createPage s).2 →
        ("name", FieldValue.str (jsTrim s.newPage.name)) ∈ w.doc
          ∧ jsTrim s.newPage.name ≠ "")
    ∧ (∀ loc w, w ∈ (createWidget loc s).2 →
        ("content", FieldValue.str (jsTrim s.newWidget.content)) ∈ w.doc
          ∧ jsTrim s.newWidget.content ≠ "")
    ∧ (∀ w, w ∈ (createPost s).2 →
        ("content", FieldValue.str (jsTrim s.newPost)) ∈ w.doc
          ∧ jsTrim s.newPost ≠ "") := by
  unfold createPage createWidget createPost
  cases hu : s.user <;> cases ha : s.activePageId <;>
    refine ⟨fun h => ?_, fun loc h => ?_, fun h => ?_,
            fun w hw => ?_, fun loc w hw => ?_, fun w hw => ?_⟩ <;>
      (try split at hw) <;> (try split at hw) <;> (try split at hw) <;>
        simp_all

/-- C9 witness: createPage is a no-op on a state whose page-name form field
is whitespace only. -/
theorem create_ops_require_nonblank_trimmed_text_witness :
    createPage { sBase with newPage := ⟨"  ", "public"⟩ }
      = ({ sBase with newPage := ⟨"  ", "public"⟩ }, []) :=
  (create_ops_require_nonblank_trimmed_text _).1 (by decide)

/-- C4: a page document written by createPage carries isDefault = true
exactly when the locally mirrored pages list is empty at the time of the
call, and isDefault = false exactly when it is not. -/
theorem createPage_isDefault_iff_no_pages (s : SelphiState) (w : Write)
    (hw : w ∈ (createPage s).2) :
    ((("isDefault", FieldValue.bool true) ∈ w.doc) ↔ s.pages = [])
    ∧ ((("isDefault", FieldValue.bool false) ∈ w.doc) ↔ s.pages ≠ []) := by
  unfold createPage at hw
  split at hw <;> (try split at hw) <;> (try split at hw) <;>
    (try simp at hw)
  subst hw
  simp [List.length_eq_zero]

/-- C4 witness: on the concrete state with no mirrored pages, the write
carries isDefault = true. -/
theorem createPage_isDefault_iff_no_pages_witness :
    (("isDefault", FieldValue.bool true) ∈ wPageC.doc) ↔ sBase.pages = [] :=
  (createPage_isDefault_iff_no_pages sBase wPageC (by decide)).1

/-- C5: every document written by the three create operations goes to the
collection path artifacts/(appId)/users/(uid)/selphi_data/(collection) for
the current application id and user, and has exactly the specified ordered
field set, with the timestamp field server-assigned. -/
theorem create_writes_paths_and_fields (s : SelphiState) :
    (∀ w ∈ (createPage s).2, ∃ uid, s.user = some uid
        ∧ w.path = "artifacts/" ++ s.appId ++ "/users/" ++ uid
            ++ "/selphi_data/niche_pages"
        ∧ w.doc.map Prod.fst
            = ["userId", "name", "privacyLevel", "isDefault", "createdAt"]
        ∧ ("createdAt", FieldValue.serverTimestamp) ∈ w.doc)
    ∧ (∀ loc, ∀ w ∈ (createWidget loc s).2, ∃ uid, s.user = some uid
        ∧ w.path = "artifacts/" ++ s.appId ++ "/users/" ++ uid
            ++ "/selphi_data/widgets"
        ∧ w.doc.map Prod.fst
            = ["userId", "type", "content", "panelLocation", "order",
               "pageId", "createdAt"]
        ∧ ("createdAt", FieldValue.serverTimestamp) ∈ w.doc)
    ∧ (∀ w ∈ (createPost s).2, ∃ uid, s.user = some uid
        ∧ w.path = "artifacts/" ++ s.appId ++ "/users/" ++ uid
            ++ "/selphi_data/feed_posts"
        ∧ w.doc.map Prod.fst = ["userId", "content", "pageId", "timestamp"]
        ∧ ("timestamp", FieldValue.serverTimestamp) ∈ w.doc) := by
  refine ⟨fun w hw => ?_, fun loc w hw => ?_, fun w hw => ?_⟩ <;>
    simp only [createPage, createWidget, createPost] at hw <;>
      split at hw <;> (try split at hw) <;> (try split at hw) <;>
        simp_all [basePath, String.append_assoc]

/-- C5 witness: the concrete page write of sBase. -/
theorem create_writes_paths_and_fields_witness :
    ∃ uid, sBase.user = some uid
      ∧ wPageC.path = "artifacts/" ++ sBase.appId ++ "/users/" ++ uid
          ++ "/selphi_data/niche_pages"
      ∧ wPageC.doc.map Prod.fst
          = ["userId", "name", "privacyLevel", "isDefault", "createdAt"]
      ∧ ("createdAt", FieldValue.serverTimestamp) ∈ wPageC.doc :=
  (create_writes_paths_and_fields sBase).1 wPageC (by decide)

/-- strictEq holds exactly when both operands are the same string. -/
theorem strictEq_eq_true_iff (a b : Option String) :
    strictEq a b = true ↔ ∃ x, a = some x ∧ b = some x := by
  cases a <;> cases b <;> simp [strictEq]
  exact eq_comm

/-- Widgets used by the view-scoping and sorting witnesses. -/
def wsC : List Widget :=
  [⟨"w1", "left", some "p1", none⟩, ⟨"w2", "left", some "p1", some 2⟩,
   ⟨"w3", "right", some "p1", some 1⟩, ⟨"w4", "left", some "p2", some 0⟩]

/-- Feed posts used by the view-scoping witness. -/
def fdC : List Post := [⟨"f1", some "p1"⟩, ⟨"f2", some "p2"⟩]

/-- C6: every item of each of the three derived views carries exactly the
active page id; items of other pages never appear. -/
theorem derived_views_scoped_to_active_page (ws : List Widget)
    (fd : List Post) (pid : Option String) :
    (∀ w ∈ leftWidgets ws pid, w.pageId = pid)
    ∧ (∀ w ∈ rightWidgets ws pid, w.pageId = pid)
    ∧ (∀ p ∈ pageFeed fd pid, p.pageId = pid) := by
  refine ⟨fun w hw => ?_, fun w hw => ?_, fun p hp => ?_⟩
  · rw [leftWidgets, List.mem_mergeSort, List.mem_filter] at hw
    obtain ⟨x, hx1, hx2⟩ :=
      (strictEq_eq_true_iff _ _).mp (Bool.and_elim_right hw.2)
    rw [hx1, hx2]
  · rw [rightWidgets, List.mem_mergeSort, List.mem_filter] at hw
    obtain ⟨x, hx1, hx2⟩ :=
      (strictEq_eq_true_iff _ _).mp (Bool.and_elim_right hw.2)
    rw [hx1, hx2]
  · rw [pageFeed, List.mem_filter] at hp
    obtain ⟨x, hx1, hx2⟩ := (strictEq_eq_true_iff _ _).mp hp.2
    rw [hx1, hx2]

/-- C6 witness: the first fixture post is in the p1 feed and carries p1. -/
theorem derived_views_scoped_to_active_page_witness :
    (⟨"f1", some "p1"⟩ : Post).pageId = some "p1" :=
  (derived_views_scoped_to_active_page wsC fdC (some "p1")).2.2
    ⟨"f1", some "p1"⟩ (by decide)

/-- checkRequired rejects as soon as one listed key is falsy. -/
theorem checkRequired_eq_none (ks : List String) (obj : Json)
    (h : ∃ k ∈ ks, jsFalsyJson (jsLookup obj k) = true) :
    checkRequired ks obj = none := by
  induction ks with
  | nil => simp at h
  | cons k ks ih =>
    obtain ⟨k0, hk0, hf⟩ := h
    rw [checkRequired]
    rcases List.mem_cons.mp hk0 with h0 | h0
    · subst h0; rw [hf]; rfl
    · split
      · rfl
      · exact ih ⟨k0, h0, hf⟩

/-- checkRequired returns the object untouched when every listed key is
truthy on it. -/
theorem checkRequired_eq_some (ks : List String) (obj : Json)
    (h : ∀ k ∈ ks, jsFalsyJson (jsLookup obj k) = false) :
    checkRequired ks obj = some obj := by
  induction ks with
  | nil => rfl
  | cons k ks ih =>
    rw [checkRequired, h k (List.mem_cons_self k ks)]
    exact ih (fun k0 h0 => h k0 (List.mem_cons_of_mem k h0))
    |>.symm ▸ rfl

/-- C3: parseFirebaseConfig returns null on falsy input, on input that fails
to parse, and on a parsed value with an absent or falsy required key
(apiKey, authDomain, projectId); otherwise it returns the parsed value. -/
theorem parseFirebaseConfig_spec (jsonParse : String → Option Json)
    (input : Json) :
    (jsFalsyJson (some input) = true →
      parseFirebaseConfig jsonParse input = none)
    ∧ (parsedVal jsonParse input = none →
      parseFirebaseConfig jsonParse input = none)
    ∧ (∀ v, parsedVal jsonParse input = some v →
      (∃ k ∈ requiredKeys, jsFalsyJson (jsLookup v k) = true) →
      parseFirebaseConfig jsonParse input = none)
    ∧ (∀ v, jsFalsyJson (some input) = false →
      parsedVal jsonParse input = some v →
      (∀ k ∈ requiredKeys, jsFalsyJson (jsLookup v k) = false) →
      parseFirebaseConfig jsonParse input = some v) := by
  refine ⟨fun h => by simp [parseFirebaseConfig, h], fun h => ?_,
          fun v hv hk => ?_, fun v hin hv hk => ?_⟩
  · rw [parseFirebaseConfig]
    split
    · rfl
    · rw [h]
  · rw [parseFirebaseConfig]
    split
    · rfl
    · rw [hv]
      exact checkRequired_eq_none requiredKeys v hk
  · rw [parseFirebaseConfig, if_neg (by simp [hin]), hv]
    exact checkRequired_eq_some requiredKeys v hk

/-- A Firebase config object carrying all three required keys. -/
def cfgC : Json :=
  Json.obj [("apiKey", Json.str "k"), ("authDomain", Json.str "d"),
            ("projectId", Json.str "p")]

/-- C3 witness: a parse oracle returning the complete config object makes
parseFirebaseConfig accept the raw string input. -/
theorem parseFirebaseConfig_spec_witness :
    parseFirebaseConfig (fun _ => some cfgC) (Json.str "raw") = some cfgC :=
  (parseFirebaseConfig_spec (fun _ => some cfgC) (Json.str "raw")).2.2.2 cfgC
    (by decide) rfl (by decide)

/-- C7: a value whose stringify/parse round trip succeeds (every
JSON-serializable value, per the platform contract of JSON.stringify and
JSON.parse, which also never stringify a defined value to the empty string)
is read back unchanged by the local-storage hook; an absent item or one that
fails to parse yields the supplied initial value. -/
theorem useLocalStorage_roundtrip (codec : JsonCodec) (v initialValue : Json)
    (hrt : codec.parse (codec.stringify v) = some v)
    (hne : codec.stringify v ≠ "") :
    useLocalStorageRead codec (useLocalStorageWrite codec v) initialValue = v
    ∧ useLocalStorageRead codec none initialValue = initialValue
    ∧ ∀ item, codec.parse item = none →
        useLocalStorageRead codec (some item) initialValue
          = initialValue := by
  refine ⟨?_, rfl, fun item hitem => ?_⟩
  · rw [useLocalStorageWrite, useLocalStorageRead,
        if_neg (by simp [hne]), hrt]
  · rw [useLocalStorageRead]
    split
    · rfl
    · rw [hitem]

/-- A degenerate but lawful codec on the single value used below. -/
def codecC : JsonCodec :=
  ⟨fun _ => "x", fun _ => some (Json.num 1)⟩

/-- C7 witness: the concrete round trip through the hook. -/
theorem useLocalStorage_roundtrip_witness :
    useLocalStorageRead codecC (useLocalStorageWrite codecC (Json.num 1))
      Json.null = Json.num 1 :=
  (useLocalStorage_roundtrip codecC (Json.num 1) Json.null rfl
    (by decide)).1

/-- The state of the C10 counterexample: page B is currently active (and
mirrored), but the pages subscription was established before any page was
active, so the handler captured a null active-page id. -/
def s10 : SelphiState :=
  { sBase with activePageId := some "B",
               pages := [⟨"A", true⟩, ⟨"B", false⟩] }

/-- The pages snapshot delivered in the C10 counterexample. -/
def docs10 : List Page := [⟨"A", true⟩, ⟨"B", false⟩]

/-- C10 counterexample: a snapshot received while page B is active resets
the active page to the default page A, because the handler consults the
captured (stale, null) active-page id rather than the current one. -/
theorem pages_snapshot_resets_active_page_cex :
    jsFalsy s10.activePageId = false
    ∧ (onPagesSnapshot none s10 docs10).activePageId ≠ s10.activePageId
    ∧ (onPagesSnapshot none s10 docs10).activePageId = some "A" := by
  refine ⟨rfl, ?_, rfl⟩
  decide

/-- C10 amended: the handler always replaces the mirrored pages list; its
active-page decision is driven by the active-page id captured when the
subscription was established. When the captured id is truthy the active page
id is left unchanged; when it is falsy the active page id is set to the
first page marked isDefault, else to the first page of the snapshot, else to
null. -/
theorem pages_snapshot_uses_captured_active_id (cap : Option String)
    (s : SelphiState) (docs : List Page) :
    (onPagesSnapshot cap s docs).pages = docs
    ∧ (jsFalsy cap = false →
        (onPagesSnapshot cap s docs).activePageId = s.activePageId)
    ∧ (jsFalsy cap = true → ∀ p, docs.find? (fun q => q.isDefault) = some p →
        (onPagesSnapshot cap s docs).activePageId = some p.id)
    ∧ (jsFalsy cap = true → docs.find? (fun q => q.isDefault) = none →
        (onPagesSnapshot cap s docs).activePageId
          = docs.head?.map (fun p => p.id))
    ∧ (jsFalsy cap = true → docs = [] →
        (onPagesSnapshot cap s docs).activePageId = none) := by
  refine ⟨?_, fun h => ?_, fun h p hp => ?_, fun h hn => ?_, fun h he => ?_⟩
  · rw [onPagesSnapshot]
    split <;> rfl
  · rw [onPagesSnapshot, if_neg (by simp [h])]
  · rw [onPagesSnapshot, if_pos h]
    simp [hp]
  · rw [onPagesSnapshot, if_pos h]
    simp [hn]
  · subst he
    rw [onPagesSnapshot, if_pos h]
    rfl

/-- C10 amended witness: the concrete snapshot of the counterexample state
sets the active page to the default page A. -/
theorem pages_snapshot_uses_captured_active_id_witness :
    (onPagesSnapshot none s10 docs10).activePageId = some "A" :=
  (pages_snapshot_uses_captured_active_id none s10 docs10).2.2.1 rfl
    ⟨"A", true⟩ (by decide)

/-- Transitivity of the boolean key preorder fed to mergeSort. -/
theorem key_le_trans {α : Type} (key : α → Int) (a b c : α)
    (hab : decide (key a ≤ key b) = true)
    (hbc : decide (key b ≤ key c) = true) :
    decide (key a ≤ key c) = true := by
  simp only [decide_eq_true_eq] at *
  omega

/-- Totality of the boolean key preorder fed to mergeSort. -/
theorem key_le_total {α : Type} (key : α → Int) (a b : α) :
    (decide (key a ≤ key b) || decide (key b ≤ key a)) = true := by
  simp only [Bool.or_eq_true, decide_eq_true_eq]
  omega

/-- mergeSort on the key preorder produces a key-sorted list. -/
theorem mergeSort_key_sorted {α : Type} (key : α → Int) (l : List α) :
    (l.mergeSort (fun a b => decide (key a ≤ key b))).Pairwise
      (fun a b => key a ≤ key b) :=
  (List.sorted_mergeSort (key_le_trans key) (key_le_total key) l).imp
    (fun h => decide_eq_true_eq.mp h)

/-- Stability of mergeSort, phrased through key classes: the sub-sequence of
elements with any given key is exactly the corresponding sub-sequence of the
input. -/
theorem mergeSort_key_filter {α : Type} (key : α → Int) (l : List α)
    (k : Int) :
    (l.mergeSort (fun a b => decide (key a ≤ key b))).filter
        (fun a => key a == k)
      = l.filter (fun a => key a == k) := by
  have hpw : (l.filter (fun a => key a == k)).Pairwise
      (fun a b => decide (key a ≤ key b) = true) := by
    apply List.pairwise_of_forall_mem_list
    intro a ha b hb
    have ha2 := (List.mem_filter.mp ha).2
    have hb2 := (List.mem_filter.mp hb).2
    simp only [beq_iff_eq] at ha2 hb2
    simp only [decide_eq_true_eq]
    omega
  have hsub : List.Sublist (l.filter (fun a => key a == k))
      (l.mergeSort (fun a b => decide (key a ≤ key b))) :=
    List.sublist_mergeSort (key_le_trans key) (key_le_total key) hpw
      (List.filter_sublist l)
  have hperm : ((l.mergeSort (fun a b => decide (key a ≤ key b))).filter
        (fun a => key a == k)).Perm (l.filter (fun a => key a == k)) :=
    (List.mergeSort_perm l _).filter _
  have hsub2 : List.Sublist (l.filter (fun a => key a == k))
      ((l.mergeSort (fun a b => decide (key a ≤ key b))).filter
          (fun a => key a == k)) := by
    have h3 := hsub.filter (fun a => key a == k)
    rwa [List.filter_eq_self.mpr
      (fun a ha => (List.mem_filter.mp ha).2)] at h3
  exact (hsub2.eq_of_length hperm.length_eq.symm).symm

/-- A key-sorted list is determined by its key classes: two key-sorted lists
whose per-key sub-sequences agree are equal. This is the uniqueness half of
the stable-sort specification. -/
theorem sorted_key_unique {α : Type} (key : α → Int) :
    ∀ (l1 l2 : List α),
      l1.Pairwise (fun a b => key a ≤ key b) →
      l2.Pairwise (fun a b => key a ≤ key b) →
      (∀ k : Int, l1.filter (fun a => key a == k)
        = l2.filter (fun a => key a == k)) →
      l1 = l2 := by
  intro l1
  induction l1 with
  | nil =>
    intro l2 _ _ hf
    cases l2 with
    | nil => rfl
    | cons b t2 =>
      have h := hf (key b)
      simp [List.filter_cons] at h
  | cons a t1 ih =>
    intro l2 h1 h2 hf
    cases l2 with
    | nil =>
      have h := hf (key a)
      simp [List.filter_cons] at h
    | cons b t2 =>
      by_cases hk : key a = key b
      · have ha : (key a == key b) = true := by simp [hk]
        have hb : (key b == key b) = true := by simp
        have hfb := hf (key b)
        rw [List.filter_cons, List.filter_cons, if_pos ha, if_pos hb] at hfb
        injection hfb with hab hts
        subst hab
        have ht : t1 = t2 := by
          apply ih t2 h1.of_cons h2.of_cons
          intro k
          by_cases hkk : key a = k
          · subst hkk
            exact hts
          · have h1k : (key a == k) = false := beq_eq_false_iff_ne.mpr hkk
            have hfk := hf k
            rwa [List.filter_cons, List.filter_cons, if_neg (by simp [h1k]),
                 if_neg (by simp [h1k])] at hfk
        rw [ht]
      · exfalso
        have haa : (key a == key a) = true := by simp
        have hba : (key b == key a) = false :=
          beq_eq_false_iff_ne.mpr (fun h => hk h.symm)
        have hfa := hf (key a)
        rw [List.filter_cons, List.filter_cons, if_pos haa,
            if_neg (by simp [hba])] at hfa
        have hmema : a ∈ t2 := by
          have hm : a ∈ t2.filter (fun x => key x == key a) := by
            rw [← hfa]
            exact List.mem_cons_self a _
          exact (List.mem_filter.mp hm).1
        have hba2 : key b ≤ key a := List.rel_of_pairwise_cons h2 hmema
        have hbb : (key b == key b) = true := by simp
        have hab : (key a == key b) = false := beq_eq_false_iff_ne.mpr hk
        have hfb := hf (key b)
        rw [List.filter_cons, List.filter_cons, if_neg (by simp [hab]),
            if_pos hbb] at hfb
        have hmemb : b ∈ t1 := by
          have hm : b ∈ t1.filter (fun x => key x == key b) := by
            rw [hfb]
            exact List.mem_cons_self b _
          exact (List.mem_filter.mp hm).1
        have hab2 : key a ≤ key b := List.rel_of_pairwise_cons h1 hmemb
        exact hk (le_antisymm hab2 hba2)

/-- The full stable-sort specification of mergeSort on a key preorder:
the output is a permutation of the input, key-sorted, key-class preserving,
and it is the unique such list. -/
theorem stable_sort_spec {α : Type} (key : α → Int) (l0 : List α) :
    (l0.mergeSort (fun a b => decide (key a ≤ key b))).Perm l0
    ∧ (l0.mergeSort (fun a b => decide (key a ≤ key b))).Pairwise
        (fun a b => key a ≤ key b)
    ∧ (∀ k : Int,
        (l0.mergeSort (fun a b => decide (key a ≤ key b))).filter
          (fun a => key a == k) = l0.filter (fun a => key a == k))
    ∧ (∀ l, l.Perm l0 →
        l.Pairwise (fun a b => key a ≤ key b) →
        (∀ k : Int, l.filter (fun a => key a == k)
          = l0.filter (fun a => key a == k)) →
        l = l0.mergeSort (fun a b => decide (key a ≤ key b))) := by
  refine ⟨List.mergeSort_perm l0 _, mergeSort_key_sorted key l0,
          mergeSort_key_filter key l0, fun l hperm hsort hf => ?_⟩
  exact sorted_key_unique key l _ hsort (mergeSort_key_sorted key l0)
    (fun k => (hf k).trans (mergeSort_key_filter key l0 k).symm)

/-- mergeSort stability specialised to the widget comparator. -/
theorem widget_sort_filter (l : List Widget) (k : Int) :
    (l.mergeSort widgetLE).filter (fun w => orderD w == k)
      = l.filter (fun w => orderD w == k) :=
  mergeSort_key_filter orderD l k

/-- mergeSort sortedness specialised to the widget comparator. -/
theorem widget_sort_sorted (l : List Widget) :
    (l.mergeSort widgetLE).Pairwise (fun a b => orderD a ≤ orderD b) :=
  mergeSort_key_sorted orderD l

/-- C2: each panel view is exactly the widgets of that panel location and
the active page, stably sorted by ascending order (missing order read as 0),
and it is the unique key-sorted, key-class-preserving arrangement of that
filtered list: the sequence is fully determined by the input. -/
theorem panel_widgets_filtered_sorted_unique (ws : List Widget)
    (pid : Option String) :
    ((leftWidgets ws pid).Perm (ws.filter (fun w =>
        w.panelLocation == "left" && strictEq w.pageId pid))
      ∧ (leftWidgets ws pid).Pairwise (fun a b => orderD a ≤ orderD b)
      ∧ (∀ k : Int, (leftWidgets ws pid).filter (fun w => orderD w == k)
          = (ws.filter (fun w =>
              w.panelLocation == "left" && strictEq w.pageId pid)).filter
              (fun w => orderD w == k))
      ∧ (∀ l, l.Perm (ws.filter (fun w =>
            w.panelLocation == "left" && strictEq w.pageId pid)) →
          l.Pairwise (fun a b => orderD a ≤ orderD b) →
          (∀ k : Int, l.filter (fun w => orderD w == k)
            = (ws.filter (fun w =>
                w.panelLocation == "left" && strictEq w.pageId pid)).filter
                (fun w => orderD w == k)) →
          l = leftWidgets ws pid))
    ∧ ((rightWidgets ws pid).Perm (ws.filter (fun w =>
        w.panelLocation == "right" && strictEq w.pageId pid))
      ∧ (rightWidgets ws pid).Pairwise (fun a b => orderD a ≤ orderD b)
      ∧ (∀ k : Int, (rightWidgets ws pid).filter (fun w => orderD w == k)
          = (ws.filter (fun w =>
              w.panelLocation == "right" && strictEq w.pageId pid)).filter
              (fun w => orderD w == k))
      ∧ (∀ l, l.Perm (ws.filter (fun w =>
            w.panelLocation == "right" && strictEq w.pageId pid)) →
          l.Pairwise (fun a b => orderD a ≤ orderD b) →
          (∀ k : Int, l.filter (fun w => orderD w == k)
            = (ws.filter (fun w =>
                w.panelLocation == "right" && strictEq w.pageId pid)).filter
                (fun w => orderD w == k)) →
          l = rightWidgets ws pid)) :=
  ⟨stable_sort_spec orderD (ws.filter (fun w =>
      w.panelLocation == "left" && strictEq w.pageId pid)),
   stable_sort_spec orderD (ws.filter (fun w =>
      w.panelLocation == "right" && strictEq w.pageId pid))⟩

/-- C2 witness: the already-sorted filtered fixture list is certified as the
value of leftWidgets by the uniqueness clause. -/
theorem panel_widgets_filtered_sorted_unique_witness :
    [(⟨"w1", "left", some "p1", none⟩ : Widget),
     ⟨"w2", "left", some "p1", some 2⟩] = leftWidgets wsC (some "p1") :=
  (panel_widgets_filtered_sorted_unique wsC (some "p1")).1.2.2.2
    [⟨"w1", "left", some "p1", none⟩, ⟨"w2", "left", some "p1", some 2⟩]
    (by decide) (by decide) (fun _ => rfl)

/-- Replacing a missing order by the explicit order 0 the comparator reads
anyway. -/
def normOrder (w : Widget) : Widget := { w with order := some (orderD w) }

/-- mergeSort on the widget comparator commutes with normalising missing
orders to 0: such widgets sort exactly as widgets of order 0. -/
theorem mergeSort_map_normOrder (l0 : List Widget) :
    (l0.map normOrder).mergeSort widgetLE
      = (l0.mergeSort widgetLE).map normOrder := by
  apply sorted_key_unique orderD
  · exact widget_sort_sorted (l0.map normOrder)
  · exact List.Pairwise.map normOrder (fun a b h => h) (widget_sort_sorted l0)
  · intro k
    rw [widget_sort_filter, List.filter_map, List.filter_map]
    congr 1
    exact (widget_sort_filter l0 k).symm

/-- C8: a widget order that is absent, non-numeric, or otherwise falsy is
treated as the integer 0: createWidget stores Number(order) with fallback 0,
the comparator key reads a missing order as 0, and normalising missing
orders to 0 does not change either panel view (beyond the normalisation
itself). -/
theorem missing_order_treated_as_zero :
    (∀ v, jsToNum v = none → numOr0 v = 0)
    ∧ (∀ s loc w, w ∈ (createWidget loc s).2 →
        ("order", FieldValue.int (numOr0 s.newWidget.order)) ∈ w.doc)
    ∧ (∀ w : Widget, w.order = none → orderD w = 0)
    ∧ (∀ ws pid,
        leftWidgets (ws.map normOrder) pid
          = (leftWidgets ws pid).map normOrder
        ∧ rightWidgets (ws.map normOrder) pid
          = (rightWidgets ws pid).map normOrder) := by
  refine ⟨fun v hv => ?_, fun s loc w hw => ?_, fun w hw => ?_,
          fun ws pid => ⟨?_, ?_⟩⟩
  · unfold numOr0
    rw [hv]
    rfl
  · simp only [createWidget] at hw
    split at hw <;> (try split at hw) <;> (try split at hw) <;> simp_all
  · unfold orderD
    rw [hw]
    rfl
  · simp only [leftWidgets]
    rw [List.filter_map]
    have hpred : ws.filter ((fun w =>
          w.panelLocation == "left" && strictEq w.pageId pid) ∘ normOrder)
        = ws.filter (fun w =>
          w.panelLocation == "left" && strictEq w.pageId pid) := rfl
    rw [hpred, mergeSort_map_normOrder]
  · simp only [rightWidgets]
    rw [List.filter_map]
    have hpred : ws.filter ((fun w =>
          w.panelLocation == "right" && strictEq w.pageId pid) ∘ normOrder)
        = ws.filter (fun w =>
          w.panelLocation == "right" && strictEq w.pageId pid) := rfl
    rw [hpred, mergeSort_map_normOrder]

/-- C8 witness: a non-numeric order string is written as the order 0. -/
theorem missing_order_treated_as_zero_witness :
    numOr0 (JsVal.str "abc") = 0 :=
  missing_order_treated_as_zero.1 (JsVal.str "abc") (by decide)

end Selphi
